import Mathlib

/-!
A shallow embedding of the NuPlayer playback coordinator
(`media/libmediaplayerservice/nuplayer/NuPlayer.cpp`).

The coordinator is single threaded: every handler mutates the coordinator
state and issues calls to its collaborators (source, decoders, renderer,
audio sink, driver).  We embed the state as the record `NPState` and each
handler as a pure function `NPState → NPState × List Event`, where the
event list records, in program order, the calls made to collaborators
(and the posts made on reply channels).

External collaborators are modelled as oracles carried by the state:
the source's per-stream access-unit stream is a scripted list consumed
one element per `dequeueAccessUnit` call, format availability is an
`Option`, and boolean oracles stand for results of external calls
(`sinkOpenOk`, `sinkStartOk`, `decoderSeamless`, ...).

`CHECK(...)` assertions in the C++ abort the process when violated; they
are modelled as preconditions of the theorems that exercise the
corresponding handlers (the definitions themselves stay total).
-/

namespace NuPlayer

/-- Partition of `status_t` by the comparisons the coordinator performs.
`ok` is `OK` (0), `wouldBlock` is `-EWOULDBLOCK`, `infoDiscontinuity` is
`INFO_DISCONTINUITY`, `endOfStream` is `ERROR_END_OF_STREAM`; every other
error code is carried verbatim by `other`. -/
inductive Status where
  | ok
  | wouldBlock
  | infoDiscontinuity
  | endOfStream
  | other (code : Int)
deriving DecidableEq, Repr

/-- Numeric value of a status, after `MediaErrors.h` / `errno.h`:
`OK = 0`, `-EWOULDBLOCK = -11`, `ERROR_END_OF_STREAM = -1011`,
`INFO_DISCONTINUITY = -1013`. -/
def statusCode : Status → Int
  | .ok => 0
  | .wouldBlock => -11
  | .infoDiscontinuity => -1013
  | .endOfStream => -1011
  | .other code => code

/-- `UNKNOWN_ERROR` (`utils/Errors.h`), substituted when a decoder error
notification carries no `err` field. -/
def UNKNOWN_ERROR : Int := -2147483648

/-- Listener message codes from `mediaplayer.h`. -/
def MEDIA_PLAYBACK_COMPLETE : Int := 2
def MEDIA_BUFFERING_UPDATE : Int := 3
def MEDIA_SET_VIDEO_SIZE : Int := 5
def MEDIA_STARTED : Int := 6
def MEDIA_ERROR : Int := 100
def MEDIA_INFO : Int := 200
def MEDIA_ERROR_UNKNOWN : Int := 1
def MEDIA_INFO_RENDERING_START : Int := 3

/-- `MediaPlayerBase::AudioSink::CHANNEL_MASK_USE_CHANNEL_ORDER`. -/
def CHANNEL_MASK_USE_CHANNEL_ORDER : Int := 0

/-- `AUDIO_STREAM_MUSIC` (`audio.h`). -/
def AUDIO_STREAM_MUSIC : Int := 3

/-- `AUDIO_SINK_MIN_DEEP_BUFFER_DURATION_US` (`NuPlayer.h`): 5 seconds. -/
def AUDIO_SINK_MIN_DEEP_BUFFER_DURATION_US : Int := 5000000

/-- The per-stream flush status machine (`enum FlushStatus` in
`NuPlayer.h`). -/
inductive FlushStatus where
  | NONE
  | FLUSHING_DECODER
  | FLUSHING_DECODER_SHUTDOWN
  | FLUSHED
  | SHUTTING_DOWN_DECODER
  | SHUT_DOWN
deriving DecidableEq, Repr

/-- `NuPlayer::IsFlushingState`: returns `some needShutdown` when the
status is one of the two actively-flushing states, `none` otherwise
(the C++ returns `false` and leaves `needShutdown` unset). -/
def IsFlushingState : FlushStatus → Option Bool
  | .FLUSHING_DECODER => some false
  | .FLUSHING_DECODER_SHUTDOWN => some true
  | _ => none

/-- A decoder handle (`sp<Decoder>`).  `passThrough` records whether the
decoder was created as a `DecoderPassThrough` (offloaded audio);
`generation` is the decoder generation stamped into its notify channel;
`seamless` is the oracle answer this decoder gives to
`supportsSeamlessFormatChange`. -/
structure DecoderHandle where
  passThrough : Bool
  generation : Int
  seamless : Bool
deriving DecidableEq, Repr

/-- One access unit dequeued from the source.  `isAVCRef` is the oracle
result of `IsAVCReferenceFrame` (`avc_utils`, outside this file's
source); `timeUs` is the `"timeUs"` meta entry. -/
structure AccessUnit where
  isAVCRef : Bool
  timeUs : Int
deriving DecidableEq, Repr

/-- The payload of an `INFO_DISCONTINUITY` result from
`dequeueAccessUnit`: the `ATSParser` discontinuity type bits that the
coordinator inspects, and the optional `"resume-at-mediatimeUs"` extra. -/
structure DiscInfo where
  audioFormatChange : Bool
  videoFormatChange : Bool
  timeChange : Bool
  resumeAtMediaTimeUs : Option Int
deriving DecidableEq, Repr

/-- One scripted result of `Source::dequeueAccessUnit` for one stream. -/
inductive DequeueResult where
  | ok (au : AccessUnit)
  | wouldBlock
  | discontinuity (d : DiscInfo)
  | error (st : Status)
deriving DecidableEq, Repr

/-- `audio_offload_info_t` as filled in by `openAudioSink` and compared
with `memcmp`.  (A built info always has `isStreaming = true`, so it is
never byte-identical to `AUDIO_INFO_INITIALIZER`, which is modelled as
`none` in the state.) -/
structure OffloadInfo where
  sampleRate : Int
  channelMask : Int
  format : Int
  streamType : Int
  bitRate : Int
  hasVideo : Bool
  isStreaming : Bool
  durationUs : Int
deriving DecidableEq, Repr

/-- The audio format message consumed by `openAudioSink` and (for
presence only) by `instantiateDecoder`.  `channelCount` and `sampleRate`
are `CHECK`ed present in the C++ and hence total here; `mappedFormat` is
the oracle composition of `mapMimeToAudioFormat` and the AAC-profile
refinement `mapAACProfileToAudioFormat` (both live outside this file's
source): `none` means the MIME could not be mapped. -/
structure AudioSinkFormat where
  channelCount : Int
  channelMask : Option Int
  sampleRate : Int
  durationUs : Option Int
  bitRate : Option Int
  mappedFormat : Option Int
deriving DecidableEq, Repr

/-- A video format message: the fields `updateVideoSize` and
`instantiateDecoder` read.  `isAVC` is the result of comparing the MIME
against `MEDIA_MIMETYPE_VIDEO_AVC`; `crop`, `width`, `height` are
`CHECK`ed present on the paths that read them. -/
structure VideoFormatInfo where
  isAVC : Bool
  width : Int
  height : Int
  cropLeft : Int
  cropTop : Int
  cropRight : Int
  cropBottom : Int
  sar : Option (Int × Int)
  rotationDegrees : Option Int
deriving DecidableEq, Repr

/-- The deferred actions (`NuPlayer::Action` hierarchy): `seek` is
`SeekAction`, `setSurface` is `SetSurfaceAction` (carrying whether the
wrapped window is non-null), `shutdownDecoder` is
`ShutdownDecoderAction`, the three `simple...` constructors are
`SimpleAction` over the corresponding member functions, and
`postMessage` is `PostMessageAction`. -/
inductive DeferredAction where
  | seek (seekTimeUs : Int)
  | setSurface (hasWindow : Bool)
  | shutdownDecoder (audio video : Bool)
  | simpleReset
  | simpleScanSources
  | simpleDecoderFlush
  | postMessage
deriving DecidableEq, Repr

/-- External effects, in program order: calls on collaborators and posts
on reply channels. -/
inductive Event where
  | replyPost (err : Option Status)
  | replyBuffer (au : AccessUnit)
  | signalTimeDiscontinuity
  | signalResume (audio : Bool)
  | signalFlushDec (audio : Bool)
  | signalUpdateFormat (audio : Bool)
  | initiateShutdown (audio : Bool)
  | rendererFlush (audio : Bool)
  | queueEOS (audio : Bool) (err : Status)
  | rendererQueueBuffer (audio : Bool) (au : AccessUnit)
  | notifyListener (msg ext1 ext2 : Int)
  | notifyPosition (timeUs : Int)
  | notifySeekComplete
  | notifyResetComplete
  | notifySetSurfaceComplete
  | notifyFrameStats (total dropped : Int)
  | sourceSeekTo (timeUs : Int)
  | sourceStop
  | feedMoreTSData
  | setBuffers
  | rendererLooperStop
  | sinkClose
  | sinkOpenOffload (info : OffloadInfo)
  | sinkOpenPcm (deepBuffer : Bool)
  | sinkStart
  | sendMetaDataToHal
  | signalDisableOffloadAudio
  | signalAudioSinkChanged
  | postScanSourcesMsg (generation : Int)
  | setScalingMode (mode : Int)
  | decoderInit (audio : Bool)
  | decoderConfigure (audio : Bool)
  | ccDecode
  | ccDisplay (timeUs : Int)
  | postMessage
  | repost
deriving DecidableEq, Repr

/-- The coordinator state: the member variables of `NuPlayer` (handles
are modelled by presence booleans or `Option`s), plus the environment
oracles described in the file comment. -/
structure NPState where
  source : Bool
  sourceSecure : Bool
  sourceDynamicDuration : Bool
  audioDecoder : Option DecoderHandle
  videoDecoder : Option DecoderHandle
  audioDecoderGeneration : Int
  videoDecoderGeneration : Int
  renderer : Bool
  rendererLooper : Bool
  audioSink : Bool
  nativeWindow : Bool
  ccDecoder : Bool
  ccSelected : Bool
  driver : Bool
  offloadAudio : Bool
  currentOffloadInfo : Option OffloadInfo
  flushingAudio : FlushStatus
  flushingVideo : FlushStatus
  timeDiscontinuityPending : Bool
  deferredActions : List DeferredAction
  scanSourcesPending : Bool
  scanSourcesGeneration : Int
  pollDurationGeneration : Int
  timedTextGeneration : Int
  currentPositionUs : Int
  videoLateByUs : Int
  audioEOS : Bool
  videoEOS : Bool
  skipRenderingAudioUntilMediaTimeUs : Int
  skipRenderingVideoUntilMediaTimeUs : Int
  numFramesTotal : Int
  numFramesDropped : Int
  videoIsAVC : Bool
  videoScalingMode : Int
  started : Bool
  audioSourceQueue : List DequeueResult
  videoSourceQueue : List DequeueResult
  sourceAudioFormat : Option AudioSinkFormat
  sourceVideoFormat : Option VideoFormatInfo
  sourceDurationUs : Option Int
  sinkOpenOk : Bool
  sinkStartOk : Bool
  decoderSeamless : Bool
  setBuffersResult : Status
  feedMoreTSDataResult : Status
deriving DecidableEq, Repr

/-- `getDecoder(audio)`: the decoder handle for one stream. -/
def getDecoder (audio : Bool) (s : NPState) : Option DecoderHandle :=
  if audio then s.audioDecoder else s.videoDecoder

/-- `NuPlayer::notifyListener`: forwards to the driver only when the weak
driver reference is live. -/
def notifyListenerEv (s : NPState) (msg ext1 ext2 : Int) : List Event :=
  if s.driver then [Event.notifyListener msg ext1 ext2] else []

/-- `NuPlayer::performSeek`: seek the source, bump the timed-text
generation, notify the driver of the new position and seek completion. -/
def performSeek (seekTimeUs : Int) (s : NPState) : NPState × List Event :=
  ({ s with timedTextGeneration := s.timedTextGeneration + 1 },
   [Event.sourceSeekTo seekTimeUs]
     ++ (if s.driver then [Event.notifyPosition seekTimeUs, Event.notifySeekComplete] else []))

/-- `NuPlayer::flushDecoder`: no-op (beyond a log line) when the stream
has no decoder; otherwise invalidate pending scan-sources, signal the
decoder to flush, flush the renderer for that stream, and enter
`FLUSHING_DECODER_SHUTDOWN` or `FLUSHING_DECODER`. -/
def flushDecoder (audio needShutdown : Bool) (s : NPState) : NPState × List Event :=
  if (getDecoder audio s).isSome then
    let s1 := { s with scanSourcesGeneration := s.scanSourcesGeneration + 1,
                       scanSourcesPending := false }
    let newStatus := if needShutdown then FlushStatus.FLUSHING_DECODER_SHUTDOWN
                     else FlushStatus.FLUSHING_DECODER
    let s2 := if audio then { s1 with flushingAudio := newStatus }
              else { s1 with flushingVideo := newStatus }
    (s2, [Event.signalFlushDec audio, Event.rendererFlush audio])
  else (s, [])

/-- `NuPlayer::performDecoderFlush`: return if both decoders are absent;
otherwise set `mTimeDiscontinuityPending` and flush each present decoder
without shutdown. -/
def performDecoderFlush (s : NPState) : NPState × List Event :=
  if s.audioDecoder = none ∧ s.videoDecoder = none then (s, [])
  else
    let s1 := { s with timeDiscontinuityPending := true }
    let r1 := if s1.audioDecoder.isSome then flushDecoder true false s1 else (s1, [])
    let r2 := if r1.1.videoDecoder.isSome then flushDecoder false false r1.1 else (r1.1, [])
    (r2.1, r1.2 ++ r2.2)

/-- `NuPlayer::performDecoderShutdown`: return if no requested stream has
a present decoder; otherwise set `mTimeDiscontinuityPending` and flush
each requested present decoder with shutdown. -/
def performDecoderShutdown (audio video : Bool) (s : NPState) : NPState × List Event :=
  if (audio = false ∨ s.audioDecoder = none) ∧ (video = false ∨ s.videoDecoder = none) then
    (s, [])
  else
    let s1 := { s with timeDiscontinuityPending := true }
    let r1 := if audio = true ∧ s1.audioDecoder.isSome then flushDecoder true true s1 else (s1, [])
    let r2 := if video = true ∧ r1.1.videoDecoder.isSome then flushDecoder false true r1.1
              else (r1.1, [])
    (r2.1, r1.2 ++ r2.2)

/-- `NuPlayer::performReset`.  The leading `CHECK`s require both decoders
absent (a precondition of the theorems below).  The body cancels duration
polling (`cancelPollDuration` bumps the generation), bumps the
scan-sources generation and clears the pending flag, stops and drops the
renderer loop and the renderer, stops and drops the source, notifies the
driver of reset completion, and clears `mStarted`. -/
def performReset (s : NPState) : NPState × List Event :=
  let s1 := { s with pollDurationGeneration := s.pollDurationGeneration + 1,
                     scanSourcesGeneration := s.scanSourcesGeneration + 1,
                     scanSourcesPending := false }
  let ev1 := if s1.rendererLooper then [Event.rendererLooperStop] else []
  let s2 := { s1 with rendererLooper := false, renderer := false }
  let ev2 := if s2.source then [Event.sourceStop] else []
  let s3 := { s2 with source := false }
  let ev3 := if s3.driver then [Event.notifyResetComplete] else []
  let s4 := { s3 with started := false }
  (s4, ev1 ++ ev2 ++ ev3)

/-- `NuPlayer::postScanSources`: post a scan-sources message stamped with
the current generation, unless one is already pending. -/
def postScanSources (s : NPState) : NPState × List Event :=
  if s.scanSourcesPending then (s, [])
  else ({ s with scanSourcesPending := true },
        [Event.postScanSourcesMsg s.scanSourcesGeneration])

/-- `NuPlayer::performScanSources`: when started and either decoder is
absent, repost scan-sources. -/
def performScanSources (s : NPState) : NPState × List Event :=
  if s.started then
    if s.audioDecoder = none ∨ s.videoDecoder = none then postScanSources s
    else (s, [])
  else (s, [])

/-- `NuPlayer::performSetSurface`: record the (possibly null) window,
re-apply the video scaling mode (which touches the native window only
when one is present), and notify the driver. -/
def performSetSurface (hasWindow : Bool) (s : NPState) : NPState × List Event :=
  let s1 := { s with nativeWindow := hasWindow }
  (s1, (if s1.nativeWindow then [Event.setScalingMode s1.videoScalingMode] else [])
        ++ (if s1.driver then [Event.notifySetSurfaceComplete] else []))

/-- `Action::execute` dispatch: each deferred action runs its performer
(`PostMessageAction` just reposts its message). -/
def executeAction : DeferredAction → NPState → NPState × List Event
  | .seek t, s => performSeek t s
  | .setSurface w, s => performSetSurface w s
  | .shutdownDecoder a v, s => performDecoderShutdown a v s
  | .simpleReset, s => performReset s
  | .simpleScanSources, s => performScanSources s
  | .simpleDecoderFlush, s => performDecoderFlush s
  | .postMessage, s => (s, [Event.postMessage])

/-- The loop body of `NuPlayer::processDeferredActions`, with explicit
fuel (each executed action removes one queue entry and no performer
pushes to the queue, so `length` fuel suffices).  The third component
instruments the loop with the pair of flush statuses observed at the
instant each action is executed. -/
def processDeferredLoop : Nat → NPState → NPState × List Event × List (FlushStatus × FlushStatus)
  | 0, s => (s, [], [])
  | n + 1, s =>
    match s.deferredActions with
    | [] => (s, [], [])
    | a :: rest =>
      if s.flushingAudio ≠ FlushStatus.NONE ∨ s.flushingVideo ≠ FlushStatus.NONE then
        (s, [], [])
      else
        let r1 := executeAction a { s with deferredActions := rest }
        let r2 := processDeferredLoop n r1.1
        (r2.1, r1.2 ++ r2.2.1, (s.flushingAudio, s.flushingVideo) :: r2.2.2)

/-- `NuPlayer::processDeferredActions`: pop and execute deferred actions
from the front while the queue is non-empty and neither stream is
mid-flush. -/
def processDeferredActions (s : NPState) : NPState × List Event × List (FlushStatus × FlushStatus) :=
  processDeferredLoop s.deferredActions.length s

/-- `NuPlayer::finishFlushIfPossible`: return while either stream is in a
transitional flush state; otherwise propagate a pending time
discontinuity to the renderer, resume each FLUSHED stream that still has
a decoder, reset both flush statuses to `NONE` and drain the deferred
actions. -/
def finishFlushIfPossible (s : NPState) : NPState × List Event × List (FlushStatus × FlushStatus) :=
  if s.flushingAudio ≠ FlushStatus.NONE ∧ s.flushingAudio ≠ FlushStatus.FLUSHED
      ∧ s.flushingAudio ≠ FlushStatus.SHUT_DOWN then
    (s, [], [])
  else if s.flushingVideo ≠ FlushStatus.NONE ∧ s.flushingVideo ≠ FlushStatus.FLUSHED
      ∧ s.flushingVideo ≠ FlushStatus.SHUT_DOWN then
    (s, [], [])
  else
    let r0 := if s.timeDiscontinuityPending
      then ({ s with timeDiscontinuityPending := false }, [Event.signalTimeDiscontinuity])
      else (s, ([] : List Event))
    let s1 := r0.1
    let ev2 := if s1.audioDecoder.isSome ∧ s1.flushingAudio = FlushStatus.FLUSHED
               then [Event.signalResume true] else []
    let ev3 := if s1.videoDecoder.isSome ∧ s1.flushingVideo = FlushStatus.FLUSHED
               then [Event.signalResume false] else []
    let s2 := { s1 with flushingAudio := FlushStatus.NONE, flushingVideo := FlushStatus.NONE }
    let r := processDeferredActions s2
    (r.1, r0.2 ++ ev2 ++ ev3 ++ r.2.1, r.2.2)

/-- `NuPlayer::closeAudioSink`: close the sink and reset the recorded
offload info to `AUDIO_INFO_INITIALIZER`. -/
def closeAudioSink (s : NPState) : NPState × List Event :=
  ({ s with currentOffloadInfo := none }, [Event.sinkClose])

/-- The `audio_offload_info_t` `openAudioSink` builds before comparing it
to `mCurrentOffloadInfo`: sample rate, channel mask (defaulting to
`CHANNEL_MASK_USE_CHANNEL_ORDER`), mapped audio format, stream type
music, bit rate (default `-1`), has-video, streaming, duration
(default `-1`). -/
def buildOffloadInfo (fmt : AudioSinkFormat) (mapped : Int) (s : NPState) : OffloadInfo :=
  { sampleRate := fmt.sampleRate
    channelMask := fmt.channelMask.getD CHANNEL_MASK_USE_CHANNEL_ORDER
    format := mapped
    streamType := AUDIO_STREAM_MUSIC
    bitRate := fmt.bitRate.getD (-1)
    hasVideo := s.videoDecoder.isSome
    isStreaming := true
    durationUs := fmt.durationUs.getD (-1) }

/-- Whether `openAudioSink` requests `AUDIO_OUTPUT_FLAG_DEEP_BUFFER`:
no video decoder and a known source duration above the deep-buffer
threshold. -/
def deepBufferFlag (s : NPState) : Bool :=
  decide (s.videoDecoder = none) &&
    (match s.sourceDurationUs with
     | some d => decide (d > AUDIO_SINK_MIN_DEEP_BUFFER_DURATION_US)
     | none => false)

/-- The tail of `NuPlayer::openAudioSink`: when not `offloadOnly` and not
(any longer) offloading, close the sink, clear the offload info and
reopen in PCM-16 mode; finally signal the renderer when the sink
actually changed.  `evAcc` are the events already issued by the offload
phase and `changed` its `audioSinkChanged` flag. -/
def openAudioSinkPcmPhase
    (offloadOnly : Bool) (s : NPState) (evAcc : List Event) (changed : Bool) :
    NPState × List Event :=
  if offloadOnly = false ∧ s.offloadAudio = false then
    let s1 := { s with currentOffloadInfo := none }
    (s1, evAcc ++ [Event.sinkClose, Event.sinkOpenPcm (deepBufferFlag s), Event.sinkStart,
                   Event.signalAudioSinkChanged])
  else if changed then (s, evAcc ++ [Event.signalAudioSinkChanged])
  else (s, evAcc)

/-- `NuPlayer::openAudioSink`.  In offload mode: map the MIME to an audio
format (on failure disable offload and fall through to PCM); build the
offload info and return immediately when it is byte-identical to
`mCurrentOffloadInfo`; otherwise close and reopen the sink in offload
mode, on success sending HAL metadata, recording the info and starting
the sink, on open or start failure closing the sink, disabling renderer
offload and falling back to PCM. -/
def openAudioSink (fmt : AudioSinkFormat) (offloadOnly : Bool) (s : NPState) :
    NPState × List Event :=
  if s.offloadAudio then
    match fmt.mappedFormat with
    | none =>
      openAudioSinkPcmPhase offloadOnly { s with offloadAudio := false } [] false
    | some mapped =>
      let info := buildOffloadInfo fmt mapped s
      if s.currentOffloadInfo = some info then (s, [])
      else
        let ev0 := [Event.sinkClose, Event.sinkOpenOffload info]
        if s.sinkOpenOk then
          let s1 := { s with currentOffloadInfo := some info }
          let ev1 := ev0 ++ [Event.sendMetaDataToHal, Event.sinkStart]
          if s.sinkStartOk then
            openAudioSinkPcmPhase offloadOnly s1 ev1 true
          else
            openAudioSinkPcmPhase offloadOnly
              { s1 with offloadAudio := false, currentOffloadInfo := none }
              (ev1 ++ [Event.sinkClose, Event.signalDisableOffloadAudio]) true
        else
          openAudioSinkPcmPhase offloadOnly
            { s with offloadAudio := false, currentOffloadInfo := none }
            (ev0 ++ [Event.sinkClose, Event.signalDisableOffloadAudio]) true
  else openAudioSinkPcmPhase offloadOnly s [] false

/-- `NuPlayer::instantiateDecoder`: `OK` if a decoder is already present;
would-block if the source has no format yet.  Otherwise, for video,
record whether the stream is AVC, create the closed-caption decoder and
(for secure sources) propagate the secure flag; bump the stream's
generation; create the decoder (a pass-through decoder for offloaded
audio); `init` and `configure` it; for secure video, hand its input
buffers to the source via `setBuffers` and propagate a failure. -/
def instantiateDecoder (audio : Bool) (s : NPState) : NPState × List Event × Status :=
  if (getDecoder audio s).isSome then (s, [], .ok)
  else if audio then
    match s.sourceAudioFormat with
    | none => (s, [], .wouldBlock)
    | some _ =>
      let gen : Int := s.audioDecoderGeneration + 1
      let s1 := { s with audioDecoderGeneration := gen,
                         audioDecoder := some { passThrough := s.offloadAudio,
                                                generation := gen,
                                                seamless := s.decoderSeamless } }
      (s1, [Event.decoderInit true, Event.decoderConfigure true], .ok)
  else
    match s.sourceVideoFormat with
    | none => (s, [], .wouldBlock)
    | some vf =>
      let s0 := { s with videoIsAVC := vf.isAVC, ccDecoder := true }
      let gen : Int := s0.videoDecoderGeneration + 1
      let s1 := { s0 with videoDecoderGeneration := gen,
                          videoDecoder := some { passThrough := false,
                                                 generation := gen,
                                                 seamless := s.decoderSeamless } }
      let ev := [Event.decoderInit false, Event.decoderConfigure false]
      if s1.sourceSecure then (s1, ev ++ [Event.setBuffers], s1.setBuffersResult)
      else (s1, ev, .ok)

/-- `Source::dequeueAccessUnit` for one stream, consuming the scripted
result list; an exhausted script behaves as would-block. -/
def dequeueAccessUnit (audio : Bool) (s : NPState) : NPState × DequeueResult :=
  if audio then
    match s.audioSourceQueue with
    | [] => (s, .wouldBlock)
    | r :: rest => ({ s with audioSourceQueue := rest }, r)
  else
    match s.videoSourceQueue with
    | [] => (s, .wouldBlock)
    | r :: rest => ({ s with videoSourceQueue := rest }, r)

/-- The `INFO_DISCONTINUITY` branch of `feedDecoderInputData`: clear the
stream's skip-until marker, on a time change record an optional
resume-at marker and set `mTimeDiscontinuityPending`; query the decoder
for a seamless format change; when neither stream is mid-flush and the
discontinuity forces a flush or shutdown, push a scan-sources action at
the FRONT of the deferred queue; then flush with shutdown (non-seamless
format change), flush without shutdown (time change, replying `OK`),
update the decoder format in place (seamless, replying `OK`), or return
would-block when the stream is unaffected.  The final reply carries the
resulting `err` and the function returns `OK`. -/
def feedDiscontinuity (audio : Bool) (d : DiscInfo) (s : NPState) :
    NPState × List Event × Status :=
  let formatChange0 := if audio then d.audioFormatChange else d.videoFormatChange
  let s1 := if audio then { s with skipRenderingAudioUntilMediaTimeUs := -1 }
            else { s with skipRenderingVideoUntilMediaTimeUs := -1 }
  let s2 := if d.timeChange then
      match d.resumeAtMediaTimeUs with
      | some t =>
        if audio then { s1 with skipRenderingAudioUntilMediaTimeUs := t }
        else { s1 with skipRenderingVideoUntilMediaTimeUs := t }
      | none => s1
    else s1
  let s3 := { s2 with timeDiscontinuityPending := s2.timeDiscontinuityPending || d.timeChange }
  let seamless := formatChange0 &&
    (match getDecoder audio s3 with | some dec => dec.seamless | none => false)
  let formatChange := formatChange0 && !seamless
  let shutdownOrFlush := formatChange || d.timeChange
  let s4 := if s3.flushingAudio = FlushStatus.NONE ∧ s3.flushingVideo = FlushStatus.NONE
               ∧ shutdownOrFlush = true
            then { s3 with deferredActions := DeferredAction.simpleScanSources :: s3.deferredActions }
            else s3
  if formatChange then
    let r := flushDecoder audio true s4
    (r.1, r.2 ++ [Event.replyPost (some .infoDiscontinuity)], .ok)
  else if d.timeChange then
    let r := flushDecoder audio false s4
    (r.1, r.2 ++ [Event.replyPost (some .ok)], .ok)
  else if seamless then
    (s4, [Event.signalUpdateFormat audio, Event.replyPost (some .ok)], .ok)
  else (s4, [], .wouldBlock)

/-- The non-stream-distinguishing part of the late-frame drop test of
`feedDecoderInputData`: source not secure, video more than 100 ms late,
the stream is AVC and the access unit is not an AVC reference frame. -/
def avcDropCondition (s : NPState) (au : AccessUnit) : Bool :=
  !s.sourceSecure && decide (s.videoLateByUs > 100000) && s.videoIsAVC && !au.isAVCRef

/-- The dequeue loop of `feedDecoderInputData`, with fuel (one scripted
dequeue result is consumed per iteration).  A would-block result returns
would-block; a discontinuity is handled by `feedDiscontinuity`; any other
error is posted on the reply channel (returning `OK`).  A dequeued video
access unit increments `mNumFramesTotal`; it is dropped (incrementing
`mNumFramesDropped` and looping) exactly when the stream is video, the
source is not secure, video is more than 100 ms late, the stream is AVC
and the unit is not an AVC reference frame; otherwise it is forwarded to
the closed-caption decoder (video only) and posted on the reply
channel. -/
def feedDecoderLoop (audio : Bool) : Nat → NPState → NPState × List Event × Status
  | 0, s => (s, [], .wouldBlock)
  | n + 1, s =>
    let r := dequeueAccessUnit audio s
    match r.2 with
    | .wouldBlock => (r.1, [], .wouldBlock)
    | .discontinuity d => feedDiscontinuity audio d r.1
    | .error st => (r.1, [Event.replyPost (some st)], .ok)
    | .ok au =>
      let s2 := if audio then r.1 else { r.1 with numFramesTotal := r.1.numFramesTotal + 1 }
      if !audio && avcDropCondition s2 au then
        feedDecoderLoop audio n { s2 with numFramesDropped := s2.numFramesDropped + 1 }
      else
        (s2, (if audio then [] else [Event.ccDecode]) ++ [Event.replyBuffer au], .ok)

/-- `NuPlayer::feedDecoderInputData`: when the stream is mid-flush,
answer the reply channel with `INFO_DISCONTINUITY` immediately (returning
`OK` and dequeuing nothing); otherwise run the dequeue loop. -/
def feedDecoderInputData (audio : Bool) (s : NPState) : NPState × List Event × Status :=
  if (audio = true ∧ s.flushingAudio ≠ FlushStatus.NONE)
      ∨ (audio = false ∧ s.flushingVideo ≠ FlushStatus.NONE) then
    (s, [Event.replyPost (some .infoDiscontinuity)], .ok)
  else
    feedDecoderLoop audio
      ((if audio then s.audioSourceQueue else s.videoSourceQueue).length + 1) s

/-- The tail of `NuPlayer::renderBuffer` once the skip-until gate has
been passed: display closed captions for video when selected, then queue
the buffer on the renderer. -/
def renderBufferQueue (audio : Bool) (au : AccessUnit) (s : NPState) : NPState × List Event :=
  (s, (if audio = false ∧ s.ccSelected = true then [Event.ccDisplay au.timeUs] else [])
       ++ [Event.rendererQueueBuffer audio au])

/-- `NuPlayer::renderBuffer`: while the stream is mid-flush, send the
buffer straight back; drop buffers whose media time is below the
skip-until marker (clearing the marker once passed); otherwise queue on
the renderer. -/
def renderBuffer (audio : Bool) (au : AccessUnit) (s : NPState) : NPState × List Event :=
  if (audio = true ∧ s.flushingAudio ≠ FlushStatus.NONE)
      ∨ (audio = false ∧ s.flushingVideo ≠ FlushStatus.NONE) then
    (s, [Event.replyPost none])
  else
    let skipUntil := if audio then s.skipRenderingAudioUntilMediaTimeUs
                     else s.skipRenderingVideoUntilMediaTimeUs
    if skipUntil ≥ 0 then
      if au.timeUs < skipUntil then (s, [Event.replyPost none])
      else
        let s1 := if audio then { s with skipRenderingAudioUntilMediaTimeUs := -1 }
                  else { s with skipRenderingVideoUntilMediaTimeUs := -1 }
        renderBufferQueue audio au s1
    else renderBufferQueue audio au s

/-- `NuPlayer::updateVideoSize`: with no input format, report 0x0.
Otherwise derive display dimensions from the output format's crop
rectangle when present, else from the input width/height; scale the
width by the sample aspect ratio; swap the dimensions for 90/270 degree
rotation; notify the listener. -/
def updateVideoSize (inputFormat : Option VideoFormatInfo)
    (outputFormat : Option VideoFormatInfo) (s : NPState) : List Event :=
  match inputFormat with
  | none => notifyListenerEv s MEDIA_SET_VIDEO_SIZE 0 0
  | some inf =>
    let wh0 : Int × Int :=
      match outputFormat with
      | some outf => (outf.cropRight - outf.cropLeft + 1, outf.cropBottom - outf.cropTop + 1)
      | none => (inf.width, inf.height)
    let wh1 : Int × Int :=
      match inf.sar with
      | some sw => (Int.tdiv (wh0.1 * sw.1) sw.2, wh0.2)
      | none => wh0
    let rot := inf.rotationDegrees.getD 0
    let wh2 : Int × Int := if rot = 90 ∨ rot = 270 then (wh1.2, wh1.1) else wh1
    notifyListenerEv s MEDIA_SET_VIDEO_SIZE wh2.1 wh2.2

/-- The `what` of a decoder notification (`Decoder::kWhat...`).  An
output-format-changed message carries one format payload which the
handler reads as an audio sink format or a video format depending on the
stream; both projections are carried here.  An error notification's
`err` field is optional (`UNKNOWN_ERROR` is substituted when absent). -/
inductive DecoderWhat where
  | fillThisBuffer
  | eos (err : Status)
  | flushCompleted
  | outputFormatChanged (audioFormat : AudioSinkFormat) (videoFormat : VideoFormatInfo)
  | shutdownCompleted
  | error (err : Option Status)
  | drainThisBuffer (au : AccessUnit)
deriving DecidableEq, Repr

/-- A decoder notification: the generation stamped at decoder creation,
whether a reply channel is enclosed, and the payload.  (The `generation`
field is `CHECK`ed present by the handler, so it is total here.) -/
structure DecoderMsg where
  generation : Int
  hasReply : Bool
  what : DecoderWhat
deriving DecidableEq, Repr

/-- The payload of `DecoderMsg.drainThisBuffer` and
`DecoderMsg.fillThisBuffer` replies is a channel; only its presence is
modelled.  The `kWhatAudioNotify` / `kWhatVideoNotify` branch of
`NuPlayer::onMessageReceived`: reject messages whose generation differs
from the stream's current decoder generation, answering
`INFO_DISCONTINUITY` on an enclosed reply channel and otherwise dropping
the message; dispatch live messages on their `what`. -/
def onDecoderNotify (audio : Bool) (msg : DecoderMsg) (s : NPState) : NPState × List Event :=
  let currentGen := if audio then s.audioDecoderGeneration else s.videoDecoderGeneration
  if msg.generation ≠ currentGen then
    if msg.hasReply then (s, [Event.replyPost (some .infoDiscontinuity)]) else (s, [])
  else
    match msg.what with
    | .fillThisBuffer =>
      let r := feedDecoderInputData audio s
      if r.2.2 = .wouldBlock then
        if r.1.feedMoreTSDataResult = .ok then
          (r.1, r.2.1 ++ [Event.feedMoreTSData, Event.repost])
        else (r.1, r.2.1 ++ [Event.feedMoreTSData])
      else (r.1, r.2.1)
    | .eos err => (s, [Event.queueEOS audio err])
    | .flushCompleted =>
      -- CHECK(IsFlushingState(...)): a completed flush outside a flushing
      -- state aborts; the theorems below only exercise flushing states.
      match IsFlushingState (if audio then s.flushingAudio else s.flushingVideo) with
      | none => (s, [])
      | some needShutdown =>
        let s1 := if audio then { s with flushingAudio := FlushStatus.FLUSHED }
                  else { s with flushingVideo := FlushStatus.FLUSHED, videoLateByUs := 0 }
        if needShutdown then
          let s2 := if audio then { s1 with flushingAudio := FlushStatus.SHUTTING_DOWN_DECODER }
                    else { s1 with flushingVideo := FlushStatus.SHUTTING_DOWN_DECODER }
          let r := finishFlushIfPossible s2
          (r.1, [Event.initiateShutdown audio] ++ r.2.1)
        else
          let r := finishFlushIfPossible s1
          (r.1, r.2.1)
    | .outputFormatChanged afmt vfmt =>
      if audio then openAudioSink afmt false s
      else (s, updateVideoSize s.sourceVideoFormat (some vfmt) s)
    | .shutdownCompleted =>
      -- CHECK_EQ(flushing status, SHUTTING_DOWN_DECODER) precedes the
      -- transition to SHUT_DOWN.
      let s1 := if audio then { s with audioDecoder := none, flushingAudio := FlushStatus.SHUT_DOWN }
                else { s with videoDecoder := none, flushingVideo := FlushStatus.SHUT_DOWN }
      let r := finishFlushIfPossible s1
      (r.1, r.2.1)
    | .error errOpt =>
      let err := errOpt.getD (.other UNKNOWN_ERROR)
      let s1 :=
        if audio = true ∧ s.flushingAudio ≠ FlushStatus.NONE then
          { s with audioDecoder := none, flushingAudio := FlushStatus.SHUT_DOWN }
        else if audio = false ∧ s.flushingVideo ≠ FlushStatus.NONE then
          { s with videoDecoder := none, flushingVideo := FlushStatus.SHUT_DOWN }
        else s
      let r := finishFlushIfPossible s1
      (r.1, [Event.queueEOS audio err] ++ r.2.1)
    | .drainThisBuffer au => renderBuffer audio au s

/-- A renderer notification (`Renderer::kWhat...`). -/
inductive RendererMsg where
  | eos (audio : Bool) (finalResult : Status)
  | position (positionUs videoLateByUs : Int)
  | flushComplete (audio : Bool)
  | videoRenderingStart
  | mediaRenderingStart
  | audioOffloadTearDown (positionUs : Int)
deriving DecidableEq, Repr

/-- The `kWhatRendererNotify` branch of `NuPlayer::onMessageReceived`:
EOS marks the stream's EOS flag, reports a media error for an abnormal
final result and reports playback completion once both streams are at
EOS (an absent decoder counts); position updates the clock fields and
notifies the driver; audio-offload teardown closes the sink, drops the
audio decoder, flushes audio (and video when a video decoder exists) on
the renderer, disables renderer offload, clears `mOffloadAudio`, seeks
to the teardown position and re-instantiates the audio decoder. -/
def onRendererNotify (msg : RendererMsg) (s : NPState) : NPState × List Event :=
  match msg with
  | .eos audio finalResult =>
    let s1 := if audio then { s with audioEOS := true } else { s with videoEOS := true }
    let ev1 := if finalResult = .endOfStream then []
               else notifyListenerEv s1 MEDIA_ERROR MEDIA_ERROR_UNKNOWN (statusCode finalResult)
    let ev2 := if (s1.audioEOS = true ∨ s1.audioDecoder = none)
                  ∧ (s1.videoEOS = true ∨ s1.videoDecoder = none)
               then notifyListenerEv s1 MEDIA_PLAYBACK_COMPLETE 0 0 else []
    (s1, ev1 ++ ev2)
  | .position positionUs videoLateByUs =>
    let s1 := { s with currentPositionUs := positionUs, videoLateByUs := videoLateByUs }
    (s1, if s1.driver then [Event.notifyPosition positionUs,
                            Event.notifyFrameStats s1.numFramesTotal s1.numFramesDropped]
         else [])
  | .flushComplete _ => (s, [])
  | .videoRenderingStart => (s, notifyListenerEv s MEDIA_INFO MEDIA_INFO_RENDERING_START 0)
  | .mediaRenderingStart => (s, notifyListenerEv s MEDIA_STARTED 0 0)
  | .audioOffloadTearDown positionUs =>
    let r1 := closeAudioSink s
    let s2 := { r1.1 with audioDecoder := none }
    let ev2 := [Event.rendererFlush true]
                ++ (if s2.videoDecoder.isSome then [Event.rendererFlush false] else [])
                ++ [Event.signalDisableOffloadAudio]
    let s3 := { s2 with offloadAudio := false }
    let r4 := performSeek positionUs s3
    let r5 := instantiateDecoder true r4.1
    (r5.1, r1.2 ++ ev2 ++ r4.2 ++ r5.2.1)

/-! ### Concrete states used to exercise the theorems -/

/-- A freshly constructed coordinator (the `NuPlayer::NuPlayer()`
initializer list, with empty environment scripts). -/
def baseState : NPState :=
  { source := false, sourceSecure := false, sourceDynamicDuration := false,
    audioDecoder := none, videoDecoder := none,
    audioDecoderGeneration := 0, videoDecoderGeneration := 0,
    renderer := false, rendererLooper := false, audioSink := false,
    nativeWindow := false, ccDecoder := false, ccSelected := false, driver := false,
    offloadAudio := false, currentOffloadInfo := none,
    flushingAudio := .NONE, flushingVideo := .NONE,
    timeDiscontinuityPending := false, deferredActions := [],
    scanSourcesPending := false, scanSourcesGeneration := 0,
    pollDurationGeneration := 0, timedTextGeneration := 0,
    currentPositionUs := 0, videoLateByUs := 0,
    audioEOS := false, videoEOS := false,
    skipRenderingAudioUntilMediaTimeUs := -1, skipRenderingVideoUntilMediaTimeUs := -1,
    numFramesTotal := 0, numFramesDropped := 0,
    videoIsAVC := false, videoScalingMode := 1, started := false,
    audioSourceQueue := [], videoSourceQueue := [],
    sourceAudioFormat := none, sourceVideoFormat := none, sourceDurationUs := none,
    sinkOpenOk := true, sinkStartOk := true, decoderSeamless := false,
    setBuffersResult := .ok, feedMoreTSDataResult := .ok }

/-! ### C10: performDecoderShutdown / performDecoderFlush frame conditions -/

/-- C10: if `performDecoderShutdown(audio, video)` is invoked when no
requested stream has a present decoder (and likewise if
`performDecoderFlush` is invoked with both decoders absent), the
operation returns immediately with all coordinator state unchanged and
no collaborator calls — in particular `mTimeDiscontinuityPending` is not
set and both flush statuses stay as they were. -/
theorem performDecoderShutdown_flush_frame (audio video : Bool) (s : NPState)
    (hs : (audio = false ∨ s.audioDecoder = none) ∧ (video = false ∨ s.videoDecoder = none)) :
    performDecoderShutdown audio video s = (s, []) ∧
    (s.audioDecoder = none → s.videoDecoder = none → performDecoderFlush s = (s, [])) := by
  constructor
  · unfold performDecoderShutdown
    rw [if_pos hs]
  · intro ha hv
    unfold performDecoderFlush
    rw [if_pos ⟨ha, hv⟩]

/-- Witness for C10 at a concrete state with both decoders absent. -/
theorem performDecoderShutdown_flush_frame_witness :
    ((true = false ∨ baseState.audioDecoder = none)
      ∧ (true = false ∨ baseState.videoDecoder = none)) ∧
    (performDecoderShutdown true true baseState = (baseState, []) ∧
     (baseState.audioDecoder = none → baseState.videoDecoder = none →
        performDecoderFlush baseState = (baseState, []))) :=
  ⟨by decide, performDecoderShutdown_flush_frame true true baseState (by decide)⟩

/-! ### C2: stale decoder notifications -/

/-- C2: a decoder notification whose generation differs from the current
decoder generation of that stream mutates no coordinator state; if the
message carries a reply channel, that reply is answered with
`INFO_DISCONTINUITY`, otherwise the message is silently dropped. -/
theorem onDecoderNotify_stale_spec (audio : Bool) (msg : DecoderMsg) (s : NPState)
    (h : msg.generation ≠ (if audio then s.audioDecoderGeneration else s.videoDecoderGeneration)) :
    onDecoderNotify audio msg s =
      (s, if msg.hasReply then [Event.replyPost (some Status.infoDiscontinuity)] else []) := by
  unfold onDecoderNotify
  rw [if_pos h]
  by_cases hr : msg.hasReply <;> simp [hr]

/-- A stale message carrying a reply channel. -/
def staleMsg : DecoderMsg := { generation := 5, hasReply := true, what := .fillThisBuffer }

/-- Witness for C2: a generation-5 message against a generation-0
decoder. -/
theorem onDecoderNotify_stale_spec_witness :
    staleMsg.generation ≠
        (if true then baseState.audioDecoderGeneration else baseState.videoDecoderGeneration) ∧
    onDecoderNotify true staleMsg baseState =
      (baseState,
       if staleMsg.hasReply then [Event.replyPost (some Status.infoDiscontinuity)] else []) :=
  ⟨by decide, onDecoderNotify_stale_spec true staleMsg baseState (by decide)⟩

/-! ### C9: openAudioSink offload no-op -/

/-- C9: when `openAudioSink` runs in offload mode and the newly computed
offload info is byte-identical to `mCurrentOffloadInfo`, the call
returns without closing or reopening the sink and without changing any
coordinator state. -/
theorem openAudioSink_offload_noop (fmt : AudioSinkFormat) (offloadOnly : Bool) (s : NPState)
    (hoff : s.offloadAudio = true) (mapped : Int) (hmap : fmt.mappedFormat = some mapped)
    (hsame : s.currentOffloadInfo = some (buildOffloadInfo fmt mapped s)) :
    openAudioSink fmt offloadOnly s = (s, []) := by
  unfold openAudioSink
  rw [hoff, hmap]
  simp [hsame]

/-- The audio format used by the C9 witness. -/
def c9Fmt : AudioSinkFormat :=
  { channelCount := 2, channelMask := none, sampleRate := 44100,
    durationUs := some 60000000, bitRate := some 128000, mappedFormat := some 7 }

/-- A coordinator that has already opened the offload sink with
`c9Fmt`. -/
def c9State : NPState :=
  { baseState with offloadAudio := true, audioSink := true, renderer := true,
                   currentOffloadInfo := some (buildOffloadInfo c9Fmt 7 baseState) }

/-- Witness for C9: a second `openAudioSink` with the identical format
is a no-op. -/
theorem openAudioSink_offload_noop_witness :
    (c9State.offloadAudio = true ∧ c9Fmt.mappedFormat = some 7
      ∧ c9State.currentOffloadInfo = some (buildOffloadInfo c9Fmt 7 c9State)) ∧
    openAudioSink c9Fmt true c9State = (c9State, []) :=
  ⟨by decide, openAudioSink_offload_noop c9Fmt true c9State (by decide) 7 (by decide) (by decide)⟩

/-! ### C4: performReset -/

/-- Spec-side predicate, following the claim's words and §3's list of
collaborator handles (source, audio decoder, video decoder, renderer and
its loop, audio sink, native window, closed-caption decoder): all of
them absent. -/
def allCollaboratorHandlesAbsent (s : NPState) : Prop :=
  s.source = false ∧ s.audioDecoder = none ∧ s.videoDecoder = none ∧
  s.renderer = false ∧ s.rendererLooper = false ∧ s.audioSink = false ∧
  s.nativeWindow = false ∧ s.ccDecoder = false

instance (s : NPState) : Decidable (allCollaboratorHandlesAbsent s) := by
  unfold allCollaboratorHandlesAbsent
  infer_instance

/-- A started player with both decoders already shut down but an audio
sink, source, renderer and native window still present. -/
def c4State : NPState :=
  { baseState with audioSink := true, nativeWindow := true, source := true,
                   renderer := true, rendererLooper := true, driver := true, started := true }

/-- C4 counterexample: `performReset` satisfies its precondition at
`c4State` (both decoders absent) yet leaves the audio sink (and native
window) handle present, so not all collaborator handles are absent
afterwards. -/
theorem performReset_allAbsent_counterexample :
    c4State.audioDecoder = none ∧ c4State.videoDecoder = none ∧
    (performReset c4State).1.audioSink = true ∧
    ¬ allCollaboratorHandlesAbsent (performReset c4State).1 := by decide

/-- C4 (amended): after `performReset` (precondition: both decoders
absent), the source, renderer and renderer-loop handles are absent and
`mStarted` is false; duration polling is cancelled and the scan
generation is bumped with the pending flag cleared; the renderer loop is
stopped, the source stopped, and the driver notified reset-complete.
The audio sink, native window, closed-caption decoder and driver
handles are not touched. -/
theorem performReset_amended (s : NPState)
    (ha : s.audioDecoder = none) (hv : s.videoDecoder = none) :
    (performReset s).1 =
      { s with pollDurationGeneration := s.pollDurationGeneration + 1,
               scanSourcesGeneration := s.scanSourcesGeneration + 1,
               scanSourcesPending := false,
               rendererLooper := false, renderer := false,
               source := false, started := false } ∧
    (performReset s).1.audioDecoder = none ∧
    (performReset s).1.videoDecoder = none ∧
    (performReset s).1.audioSink = s.audioSink ∧
    (performReset s).1.nativeWindow = s.nativeWindow ∧
    (performReset s).1.ccDecoder = s.ccDecoder ∧
    (performReset s).1.driver = s.driver ∧
    (performReset s).2 =
      (if s.rendererLooper then [Event.rendererLooperStop] else []) ++
      (if s.source then [Event.sourceStop] else []) ++
      (if s.driver then [Event.notifyResetComplete] else []) := by
  unfold performReset
  exact ⟨rfl, ha, hv, rfl, rfl, rfl, rfl, rfl⟩

/-- Witness for C4's amended theorem at `c4State`. -/
theorem performReset_amended_witness :
    (c4State.audioDecoder = none ∧ c4State.videoDecoder = none) ∧
    ((performReset c4State).1 =
      { c4State with pollDurationGeneration := c4State.pollDurationGeneration + 1,
                     scanSourcesGeneration := c4State.scanSourcesGeneration + 1,
                     scanSourcesPending := false,
                     rendererLooper := false, renderer := false,
                     source := false, started := false } ∧
     (performReset c4State).1.audioDecoder = none ∧
     (performReset c4State).1.videoDecoder = none ∧
     (performReset c4State).1.audioSink = c4State.audioSink ∧
     (performReset c4State).1.nativeWindow = c4State.nativeWindow ∧
     (performReset c4State).1.ccDecoder = c4State.ccDecoder ∧
     (performReset c4State).1.driver = c4State.driver ∧
     (performReset c4State).2 =
       (if c4State.rendererLooper then [Event.rendererLooperStop] else []) ++
       (if c4State.source then [Event.sourceStop] else []) ++
       (if c4State.driver then [Event.notifyResetComplete] else [])) :=
  ⟨⟨by decide, by decide⟩, performReset_amended c4State (by decide) (by decide)⟩

/-! ### C3: processDeferredActions -/

/-- Unfolding of the deferred-action loop at an empty queue. -/
theorem processDeferredLoop_succ_nil (n : Nat) (s : NPState)
    (hq : s.deferredActions = []) : processDeferredLoop (n + 1) s = (s, [], []) := by
  unfold processDeferredLoop
  rw [hq]

/-- Unfolding of the deferred-action loop at a non-empty queue. -/
theorem processDeferredLoop_succ_cons (n : Nat) (s : NPState) (a : DeferredAction)
    (rest : List DeferredAction) (hq : s.deferredActions = a :: rest) :
    processDeferredLoop (n + 1) s =
      if s.flushingAudio ≠ FlushStatus.NONE ∨ s.flushingVideo ≠ FlushStatus.NONE then
        (s, [], [])
      else
        ((processDeferredLoop n (executeAction a { s with deferredActions := rest }).1).1,
         (executeAction a { s with deferredActions := rest }).2
           ++ (processDeferredLoop n (executeAction a { s with deferredActions := rest }).1).2.1,
         (s.flushingAudio, s.flushingVideo)
           :: (processDeferredLoop n (executeAction a { s with deferredActions := rest }).1).2.2) := by
  conv in processDeferredLoop (n + 1) s => unfold processDeferredLoop
  rw [hq]

/-- Every flush-status pair recorded at the instant a deferred action is
executed is `(NONE, NONE)`: the loop guard refuses to pop while either
stream is mid-flush. -/
theorem processDeferredLoop_trace_none (n : Nat) :
    ∀ s : NPState, ∀ p ∈ (processDeferredLoop n s).2.2,
      p = (FlushStatus.NONE, FlushStatus.NONE) := by
  induction n with
  | zero =>
    intro s p hp
    simp [processDeferredLoop] at hp
  | succ n ih =>
    intro s p hp
    rcases hq : s.deferredActions with _ | ⟨a, rest⟩
    · rw [processDeferredLoop_succ_nil n s hq] at hp
      simp at hp
    · rw [processDeferredLoop_succ_cons n s a rest hq] at hp
      by_cases hf : s.flushingAudio ≠ FlushStatus.NONE ∨ s.flushingVideo ≠ FlushStatus.NONE
      · rw [if_pos hf] at hp
        simp at hp
      · rw [if_neg hf] at hp
        simp only [List.mem_cons] at hp
        rcases hp with rfl | hp
        · obtain ⟨h1, h2⟩ := not_or.mp hf
          rw [not_ne_iff.mp h1, not_ne_iff.mp h2]
        · exact ih _ p hp

/-- C3: `processDeferredActions` pops and executes deferred actions from
the front, in order, only while both flush statuses are exactly `NONE`;
if either stream is mid-flush it stops without executing, so at the
instant any deferred action executes both flush statuses are in
`{NONE, FLUSHED, SHUT_DOWN}`. -/
theorem processDeferredActions_spec (s : NPState) :
    ((s.flushingAudio ≠ FlushStatus.NONE ∨ s.flushingVideo ≠ FlushStatus.NONE) →
      processDeferredActions s = (s, [], [])) ∧
    (∀ p ∈ (processDeferredActions s).2.2,
      p = (FlushStatus.NONE, FlushStatus.NONE) ∧
      p.1 ∈ [FlushStatus.NONE, FlushStatus.FLUSHED, FlushStatus.SHUT_DOWN] ∧
      p.2 ∈ [FlushStatus.NONE, FlushStatus.FLUSHED, FlushStatus.SHUT_DOWN]) ∧
    (∀ a rest, s.flushingAudio = FlushStatus.NONE → s.flushingVideo = FlushStatus.NONE →
      s.deferredActions = a :: rest →
      processDeferredActions s =
        (let r1 := executeAction a { s with deferredActions := rest }
         let r2 := processDeferredLoop rest.length r1.1
         (r2.1, r1.2 ++ r2.2.1, (FlushStatus.NONE, FlushStatus.NONE) :: r2.2.2))) := by
  refine ⟨?_, ?_, ?_⟩
  · intro h
    unfold processDeferredActions
    rcases hq : s.deferredActions with _ | ⟨a, rest⟩
    · rfl
    · simp only [List.length_cons]
      rw [processDeferredLoop_succ_cons rest.length s a rest hq, if_pos h]
  · intro p hp
    have h := processDeferredLoop_trace_none s.deferredActions.length s p hp
    refine ⟨h, ?_, ?_⟩ <;> rw [h] <;> simp
  · intro a rest h1 h2 hq
    unfold processDeferredActions
    rw [hq]
    simp only [List.length_cons]
    rw [processDeferredLoop_succ_cons rest.length s a rest hq,
        if_neg (by simp [h1, h2]), h1, h2]

/-- A coordinator mid-flush on audio, with a queued action that must not
run. -/
def c3aState : NPState :=
  { baseState with flushingAudio := .FLUSHING_DECODER,
                   deferredActions := [.postMessage] }

/-- An idle coordinator with one queued `PostMessageAction`. -/
def c3bState : NPState := { baseState with deferredActions := [.postMessage] }

/-- Witness for C3: the mid-flush state does not advance the queue; the
idle state pops and executes its front action, whose recorded statuses
are `(NONE, NONE)`. -/
theorem processDeferredActions_spec_witness :
    processDeferredActions c3aState = (c3aState, [], []) ∧
    ((FlushStatus.NONE, FlushStatus.NONE) = (FlushStatus.NONE, FlushStatus.NONE) ∧
      (FlushStatus.NONE, FlushStatus.NONE).1
        ∈ [FlushStatus.NONE, FlushStatus.FLUSHED, FlushStatus.SHUT_DOWN] ∧
      (FlushStatus.NONE, FlushStatus.NONE).2
        ∈ [FlushStatus.NONE, FlushStatus.FLUSHED, FlushStatus.SHUT_DOWN]) ∧
    processDeferredActions c3bState =
      (let r1 := executeAction .postMessage { c3bState with deferredActions := [] }
       let r2 := processDeferredLoop (List.length ([] : List DequeueResult)) r1.1
       (r2.1, r1.2 ++ r2.2.1, (FlushStatus.NONE, FlushStatus.NONE) :: r2.2.2)) :=
  ⟨(processDeferredActions_spec c3aState).1 (by decide),
   (processDeferredActions_spec c3bState).2.1 (FlushStatus.NONE, FlushStatus.NONE) (by decide),
   (processDeferredActions_spec c3bState).2.2 .postMessage [] (by decide) (by decide) (by decide)⟩

/-! ### C1: finishFlushIfPossible -/

/-- C1: if either stream's flush status is transitional (not `NONE`, not
`FLUSHED`, not `SHUT_DOWN`), `finishFlushIfPossible` returns with no
state change and no collaborator calls; otherwise it signals a time
discontinuity to the renderer exactly when `mTimeDiscontinuityPending`
was set (clearing the flag), signals resume to each stream that is in
`FLUSHED` and still has a live decoder, sets both flush statuses to
`NONE`, and then runs the deferred actions. -/
theorem finishFlushIfPossible_spec (s : NPState) :
    (((s.flushingAudio ≠ FlushStatus.NONE ∧ s.flushingAudio ≠ FlushStatus.FLUSHED
        ∧ s.flushingAudio ≠ FlushStatus.SHUT_DOWN)
      ∨ (s.flushingVideo ≠ FlushStatus.NONE ∧ s.flushingVideo ≠ FlushStatus.FLUSHED
        ∧ s.flushingVideo ≠ FlushStatus.SHUT_DOWN)) →
      finishFlushIfPossible s = (s, [], [])) ∧
    (¬ ((s.flushingAudio ≠ FlushStatus.NONE ∧ s.flushingAudio ≠ FlushStatus.FLUSHED
        ∧ s.flushingAudio ≠ FlushStatus.SHUT_DOWN)
      ∨ (s.flushingVideo ≠ FlushStatus.NONE ∧ s.flushingVideo ≠ FlushStatus.FLUSHED
        ∧ s.flushingVideo ≠ FlushStatus.SHUT_DOWN)) →
      finishFlushIfPossible s =
        (let r := processDeferredActions
            { s with timeDiscontinuityPending := false,
                     flushingAudio := FlushStatus.NONE, flushingVideo := FlushStatus.NONE }
         (r.1,
          (if s.timeDiscontinuityPending then [Event.signalTimeDiscontinuity] else [])
            ++ (if s.audioDecoder.isSome ∧ s.flushingAudio = FlushStatus.FLUSHED
                then [Event.signalResume true] else [])
            ++ (if s.videoDecoder.isSome ∧ s.flushingVideo = FlushStatus.FLUSHED
                then [Event.signalResume false] else [])
            ++ r.2.1,
          r.2.2))) := by
  constructor
  · intro h
    unfold finishFlushIfPossible
    by_cases h1 : s.flushingAudio ≠ FlushStatus.NONE ∧ s.flushingAudio ≠ FlushStatus.FLUSHED
        ∧ s.flushingAudio ≠ FlushStatus.SHUT_DOWN
    · rw [if_pos h1]
    · rw [if_neg h1, if_pos (h.resolve_left h1)]
  · intro h
    obtain ⟨hA, hB⟩ := not_or.mp h
    unfold finishFlushIfPossible
    rw [if_neg hA, if_neg hB]
    by_cases hp : s.timeDiscontinuityPending = true
    · simp only [hp, if_true]
    · simp only [Bool.not_eq_true] at hp
      simp only [hp, Bool.false_eq_true, if_false]

/-- Transitional-side state for the C1 witness. -/
def c1aState : NPState := { baseState with flushingAudio := .FLUSHING_DECODER }

/-- Stable-side state for the C1 witness: audio `FLUSHED` with a live
decoder and a pending time discontinuity. -/
def c1bState : NPState :=
  { baseState with flushingAudio := .FLUSHED,
                   audioDecoder := some { passThrough := false, generation := 1, seamless := false },
                   timeDiscontinuityPending := true }

/-- Witness for C1 on both sides of the transitional test. -/
theorem finishFlushIfPossible_spec_witness :
    finishFlushIfPossible c1aState = (c1aState, [], []) ∧
    finishFlushIfPossible c1bState =
      (let r := processDeferredActions
          { c1bState with timeDiscontinuityPending := false,
                          flushingAudio := FlushStatus.NONE, flushingVideo := FlushStatus.NONE }
       (r.1,
        (if c1bState.timeDiscontinuityPending then [Event.signalTimeDiscontinuity] else [])
          ++ (if c1bState.audioDecoder.isSome ∧ c1bState.flushingAudio = FlushStatus.FLUSHED
              then [Event.signalResume true] else [])
          ++ (if c1bState.videoDecoder.isSome ∧ c1bState.flushingVideo = FlushStatus.FLUSHED
              then [Event.signalResume false] else [])
          ++ r.2.1,
        r.2.2)) :=
  ⟨(finishFlushIfPossible_spec c1aState).1 (by decide),
   (finishFlushIfPossible_spec c1bState).2 (by decide)⟩

/-! ### C5: AVC late-frame dropping -/

/-- Unfolding of the feed loop at a video dequeue that yields an access
unit: the frame counter is incremented, then the unit is dropped or
delivered according to the AVC late-frame test. -/
theorem feedDecoderLoop_video_ok (n : Nat) (s : NPState) (au : AccessUnit)
    (rest : List DequeueResult) (hq : s.videoSourceQueue = DequeueResult.ok au :: rest) :
    feedDecoderLoop false (n + 1) s =
      (if avcDropCondition s au then
        feedDecoderLoop false n
          { s with videoSourceQueue := rest, numFramesTotal := s.numFramesTotal + 1,
                   numFramesDropped := s.numFramesDropped + 1 }
      else
        ({ s with videoSourceQueue := rest, numFramesTotal := s.numFramesTotal + 1 },
         [Event.ccDecode, Event.replyBuffer au], Status.ok)) := by
  simp only [feedDecoderLoop, dequeueAccessUnit, hq]
  simp
  rfl

/-- Unfolding of the feed loop at an audio dequeue that yields an access
unit: audio units are never counted or dropped; the unit is posted on
the reply channel. -/
theorem feedDecoderLoop_audio_ok (n : Nat) (s : NPState) (au : AccessUnit)
    (rest : List DequeueResult) (hq : s.audioSourceQueue = DequeueResult.ok au :: rest) :
    feedDecoderLoop true (n + 1) s =
      ({ s with audioSourceQueue := rest }, [Event.replyBuffer au], Status.ok) := by
  simp only [feedDecoderLoop, dequeueAccessUnit, hq]
  simp

/-- C5: in `feedDecoderInputData`, every dequeued video access unit
increments `mNumFramesTotal`, and the unit is dropped (incrementing
`mNumFramesDropped` and continuing the dequeue loop) exactly when the
stream is video, the source is not secure, `mVideoLateByUs > 100 ms`,
the stream is AVC and the unit is not an AVC reference frame; the next
reference access unit is delivered.  Audio access units are neither
counted nor dropped. -/
theorem feedDecoderInputData_avcDrop_spec (s : NPState) (au : AccessUnit)
    (rest : List DequeueResult) (hf : s.flushingVideo = FlushStatus.NONE) :
    (s.videoSourceQueue = DequeueResult.ok au :: rest →
      avcDropCondition s au = false →
      feedDecoderInputData false s =
        ({ s with videoSourceQueue := rest, numFramesTotal := s.numFramesTotal + 1 },
         [Event.ccDecode, Event.replyBuffer au], Status.ok)) ∧
    (s.videoSourceQueue = DequeueResult.ok au :: rest →
      avcDropCondition s au = true →
      feedDecoderInputData false s =
        feedDecoderLoop false (rest.length + 1)
          { s with videoSourceQueue := rest, numFramesTotal := s.numFramesTotal + 1,
                   numFramesDropped := s.numFramesDropped + 1 }) ∧
    (∀ au2, s.videoSourceQueue = DequeueResult.ok au :: DequeueResult.ok au2 :: rest →
      avcDropCondition s au = true → au2.isAVCRef = true →
      feedDecoderInputData false s =
        ({ s with videoSourceQueue := rest, numFramesTotal := s.numFramesTotal + 1 + 1,
                  numFramesDropped := s.numFramesDropped + 1 },
         [Event.ccDecode, Event.replyBuffer au2], Status.ok)) ∧
    (∀ auA restA, s.audioSourceQueue = DequeueResult.ok auA :: restA →
      s.flushingAudio = FlushStatus.NONE →
      feedDecoderInputData true s =
        ({ s with audioSourceQueue := restA }, [Event.replyBuffer auA], Status.ok)) := by
  refine ⟨?_, ?_, ?_, ?_⟩
  · intro hq hdrop
    unfold feedDecoderInputData
    rw [if_neg (by simp [hf]), if_neg (by simp)]
    rw [hq]
    simp only [List.length_cons]
    rw [feedDecoderLoop_video_ok (rest.length + 1) s au rest hq, if_neg (by simp [hdrop])]
  · intro hq hdrop
    unfold feedDecoderInputData
    rw [if_neg (by simp [hf]), if_neg (by simp)]
    rw [hq]
    simp only [List.length_cons]
    rw [feedDecoderLoop_video_ok (rest.length + 1) s au rest hq, if_pos (by simp [hdrop])]
  · intro au2 hq hdrop href
    unfold feedDecoderInputData
    rw [if_neg (by simp [hf]), if_neg (by simp)]
    rw [hq]
    simp only [List.length_cons]
    rw [feedDecoderLoop_video_ok (rest.length + 1 + 1) s au _ hq, if_pos (by simp [hdrop])]
    rw [feedDecoderLoop_video_ok (rest.length + 1)
          { s with videoSourceQueue := DequeueResult.ok au2 :: rest,
                   numFramesTotal := s.numFramesTotal + 1,
                   numFramesDropped := s.numFramesDropped + 1 } au2 rest rfl,
        if_neg (by simp [avcDropCondition, href])]
  · intro auA restA hqa hfa
    unfold feedDecoderInputData
    rw [if_neg (by simp [hfa]), if_pos rfl]
    rw [hqa]
    simp only [List.length_cons]
    rw [feedDecoderLoop_audio_ok (restA.length + 1) s auA restA hqa]

/-- A non-reference access unit, late on a non-secure AVC stream. -/
def c5au : AccessUnit := { isAVCRef := false, timeUs := 1000 }

/-- The reference access unit that follows it. -/
def c5au2 : AccessUnit := { isAVCRef := true, timeUs := 2000 }

/-- A late (150 ms) non-secure AVC video stream about to dequeue a
non-reference unit followed by a reference unit. -/
def c5State : NPState :=
  { baseState with videoIsAVC := true, videoLateByUs := 150000,
                   videoDecoder := some { passThrough := false, generation := 1, seamless := false },
                   videoSourceQueue := [.ok c5au, .ok c5au2] }

/-- An on-time stream delivering the same unit without dropping. -/
def c5bState : NPState := { baseState with videoSourceQueue := [.ok c5au] }

/-- Witness for C5: the on-time stream delivers the front unit with only
the total counter incremented; the late AVC stream drops the
non-reference unit and delivers the following reference unit. -/
theorem feedDecoderInputData_avcDrop_spec_witness :
    (feedDecoderInputData false c5bState =
      ({ c5bState with videoSourceQueue := [], numFramesTotal := c5bState.numFramesTotal + 1 },
       [Event.ccDecode, Event.replyBuffer c5au], Status.ok)) ∧
    (feedDecoderInputData false c5State =
      ({ c5State with videoSourceQueue := [], numFramesTotal := c5State.numFramesTotal + 1 + 1,
                      numFramesDropped := c5State.numFramesDropped + 1 },
       [Event.ccDecode, Event.replyBuffer c5au2], Status.ok)) :=
  ⟨(feedDecoderInputData_avcDrop_spec c5bState c5au [] (by decide)).1 (by decide) (by decide),
   (feedDecoderInputData_avcDrop_spec c5State c5au [] (by decide)).2.2.1 c5au2
     (by decide) (by decide) (by decide)⟩

/-! ### C8: feedDecoderInputData while flushing, and error replies -/

/-- A discontinuity result that does not return `OK` replies nothing. -/
theorem feedDiscontinuity_noreply (audio : Bool) (d : DiscInfo) (s : NPState) :
    (feedDiscontinuity audio d s).2.2 = Status.ok ∨ (feedDiscontinuity audio d s).2.1 = [] := by
  unfold feedDiscontinuity
  dsimp only
  split_ifs <;> simp

/-- A feed-loop run that does not return `OK` (that is, one that returns
would-block) issues no reply post and in fact no event at all. -/
theorem feedDecoderLoop_noreply (audio : Bool) (n : Nat) :
    ∀ s : NPState, (feedDecoderLoop audio n s).2.2 ≠ Status.ok →
      (feedDecoderLoop audio n s).2.1 = [] := by
  induction n with
  | zero => intro s _; rfl
  | succ n ih =>
    intro s h
    cases audio with
    | true =>
      rcases hq : s.audioSourceQueue with _ | ⟨r, rest⟩
      · simp [feedDecoderLoop, dequeueAccessUnit, hq]
      · rcases r with au | _ | d | st
        · simp [feedDecoderLoop, dequeueAccessUnit, hq] at h
        · simp [feedDecoderLoop, dequeueAccessUnit, hq]
        · simp [feedDecoderLoop, dequeueAccessUnit, hq] at h ⊢
          rcases feedDiscontinuity_noreply true d { s with audioSourceQueue := rest } with hok | hev
          · exact absurd hok h
          · exact hev
        · simp [feedDecoderLoop, dequeueAccessUnit, hq] at h
    | false =>
      rcases hq : s.videoSourceQueue with _ | ⟨r, rest⟩
      · simp [feedDecoderLoop, dequeueAccessUnit, hq]
      · rcases r with au | _ | d | st
        · simp [feedDecoderLoop, dequeueAccessUnit, hq] at h ⊢
          split_ifs at h ⊢ with hdrop
          · exact ih _ h
          · simp at h
        · simp [feedDecoderLoop, dequeueAccessUnit, hq]
        · simp [feedDecoderLoop, dequeueAccessUnit, hq] at h ⊢
          rcases feedDiscontinuity_noreply false d { s with videoSourceQueue := rest } with hok | hev
          · exact absurd hok h
          · exact hev
        · simp [feedDecoderLoop, dequeueAccessUnit, hq] at h

/-- C8: a `feedDecoderInputData` call on a stream whose flush status is
not `NONE` immediately answers the enclosed reply channel with
`INFO_DISCONTINUITY`, dequeues nothing and changes no state; and
whenever `feedDecoderInputData` posts a reply carrying an `err` (rather
than returning would-block), its own return value is `OK` — "reply
handled", not "success". -/
theorem feedDecoderInputData_flush_reply_spec (audio : Bool) (s : NPState) :
    (((audio = true ∧ s.flushingAudio ≠ FlushStatus.NONE)
        ∨ (audio = false ∧ s.flushingVideo ≠ FlushStatus.NONE)) →
      feedDecoderInputData audio s =
        (s, [Event.replyPost (some Status.infoDiscontinuity)], Status.ok)) ∧
    (∀ e, Event.replyPost e ∈ (feedDecoderInputData audio s).2.1 →
      (feedDecoderInputData audio s).2.2 = Status.ok) := by
  constructor
  · intro h
    unfold feedDecoderInputData
    rw [if_pos h]
  · intro e he
    by_cases hok : (feedDecoderInputData audio s).2.2 = Status.ok
    · exact hok
    · exfalso
      unfold feedDecoderInputData at he hok
      by_cases hfl : (audio = true ∧ s.flushingAudio ≠ FlushStatus.NONE)
          ∨ (audio = false ∧ s.flushingVideo ≠ FlushStatus.NONE)
      · rw [if_pos hfl] at hok
        exact hok rfl
      · rw [if_neg hfl] at he hok
        rw [feedDecoderLoop_noreply audio _ s hok] at he
        simp at he

/-- A coordinator mid-flush on audio. -/
def c8State : NPState := { baseState with flushingAudio := .FLUSHED }

/-- Witness for C8: the mid-flush call posts `INFO_DISCONTINUITY` and
returns `OK`. -/
theorem feedDecoderInputData_flush_reply_spec_witness :
    (feedDecoderInputData true c8State =
      (c8State, [Event.replyPost (some Status.infoDiscontinuity)], Status.ok)) ∧
    (feedDecoderInputData true c8State).2.2 = Status.ok :=
  ⟨(feedDecoderInputData_flush_reply_spec true c8State).1 (Or.inl ⟨rfl, by decide⟩),
   (feedDecoderInputData_flush_reply_spec true c8State).2
     (some Status.infoDiscontinuity) (by decide)⟩

/-! ### C6: renderer EOS -/

/-- C6: a renderer EOS notification marks the corresponding stream's EOS
flag, notifies `MEDIA_ERROR` exactly when the final result is not
`ERROR_END_OF_STREAM`, and notifies `MEDIA_PLAYBACK_COMPLETE` exactly
when (audio is EOS or the audio decoder is absent) and (video is EOS or
the video decoder is absent), judged on the updated flags. -/
theorem onRendererNotify_eos_spec (audio : Bool) (finalResult : Status) (s : NPState)
    (hd : s.driver = true) :
    onRendererNotify (.eos audio finalResult) s =
      (let s1 : NPState := if audio then { s with audioEOS := true } else { s with videoEOS := true }
       (s1,
        (if finalResult = Status.endOfStream then []
         else [Event.notifyListener MEDIA_ERROR MEDIA_ERROR_UNKNOWN (statusCode finalResult)])
          ++ (if (s1.audioEOS = true ∨ s1.audioDecoder = none)
                 ∧ (s1.videoEOS = true ∨ s1.videoDecoder = none)
              then [Event.notifyListener MEDIA_PLAYBACK_COMPLETE 0 0] else []))) := by
  cases audio <;> simp [onRendererNotify, notifyListenerEv, hd]

/-- A coordinator with a live driver, a present video decoder and no
audio decoder. -/
def c6State : NPState :=
  { baseState with driver := true,
                   videoDecoder := some { passThrough := false, generation := 1, seamless := false } }

/-- Witness for C6: an audio EOS with an abnormal final result reports
`MEDIA_ERROR` and, the video decoder still being present with video not
at EOS, no playback completion. -/
theorem onRendererNotify_eos_spec_witness :
    c6State.driver = true ∧
    onRendererNotify (.eos true (Status.other (-38))) c6State =
      (let s1 : NPState := if true then { c6State with audioEOS := true }
                           else { c6State with videoEOS := true }
       (s1,
        (if Status.other (-38) = Status.endOfStream then []
         else [Event.notifyListener MEDIA_ERROR MEDIA_ERROR_UNKNOWN (statusCode (Status.other (-38)))])
          ++ (if (s1.audioEOS = true ∨ s1.audioDecoder = none)
                 ∧ (s1.videoEOS = true ∨ s1.videoDecoder = none)
              then [Event.notifyListener MEDIA_PLAYBACK_COMPLETE 0 0] else []))) :=
  ⟨by decide, onRendererNotify_eos_spec true (Status.other (-38)) c6State (by decide)⟩

/-! ### C7: audio offload teardown -/

/-- C7: on `AudioOffloadTearDown(positionUs)`, the coordinator closes
the audio sink, clears the audio decoder handle, flushes audio on the
renderer and — when a video decoder is present — also video, disables
renderer offload, clears `mOffloadAudio`, performs the seek and
re-instantiates the audio decoder, which (the source's audio format
being available) is a fresh, non-pass-through decoder under the bumped
generation. -/
theorem onRendererNotify_offloadTearDown_spec (t : Int) (s : NPState) (fmt : AudioSinkFormat)
    (hfmt : s.sourceAudioFormat = some fmt) :
    (onRendererNotify (.audioOffloadTearDown t) s).1.offloadAudio = false ∧
    (onRendererNotify (.audioOffloadTearDown t) s).1.audioDecoder =
      some { passThrough := false, generation := s.audioDecoderGeneration + 1,
             seamless := s.decoderSeamless } ∧
    (onRendererNotify (.audioOffloadTearDown t) s).1.audioDecoderGeneration =
      s.audioDecoderGeneration + 1 ∧
    (onRendererNotify (.audioOffloadTearDown t) s).1.currentOffloadInfo = none ∧
    (onRendererNotify (.audioOffloadTearDown t) s).1.timedTextGeneration =
      s.timedTextGeneration + 1 ∧
    (onRendererNotify (.audioOffloadTearDown t) s).2 =
      [Event.sinkClose, Event.rendererFlush true]
        ++ (if s.videoDecoder.isSome then [Event.rendererFlush false] else [])
        ++ [Event.signalDisableOffloadAudio, Event.sourceSeekTo t]
        ++ (if s.driver then [Event.notifyPosition t, Event.notifySeekComplete] else [])
        ++ [Event.decoderInit true, Event.decoderConfigure true] := by
  refine ⟨?_, ?_, ?_, ?_, ?_, ?_⟩ <;>
    simp [onRendererNotify, closeAudioSink, performSeek, instantiateDecoder, getDecoder, hfmt]

/-- An offloaded audio player about to tear down, its source still able
to produce an audio format. -/
def c7State : NPState :=
  { baseState with driver := true, source := true, started := true, renderer := true,
                   audioSink := true, offloadAudio := true,
                   audioDecoder := some { passThrough := true, generation := 3, seamless := false },
                   audioDecoderGeneration := 3,
                   currentOffloadInfo := some (buildOffloadInfo c9Fmt 7 baseState),
                   sourceAudioFormat := some c9Fmt }

/-- Witness for C7 at `c7State` with teardown position 12_345_000 us. -/
theorem onRendererNotify_offloadTearDown_spec_witness :
    c7State.sourceAudioFormat = some c9Fmt ∧
    ((onRendererNotify (.audioOffloadTearDown 12345000) c7State).1.offloadAudio = false ∧
     (onRendererNotify (.audioOffloadTearDown 12345000) c7State).1.audioDecoder =
       some { passThrough := false, generation := c7State.audioDecoderGeneration + 1,
              seamless := c7State.decoderSeamless } ∧
     (onRendererNotify (.audioOffloadTearDown 12345000) c7State).1.audioDecoderGeneration =
       c7State.audioDecoderGeneration + 1 ∧
     (onRendererNotify (.audioOffloadTearDown 12345000) c7State).1.currentOffloadInfo = none ∧
     (onRendererNotify (.audioOffloadTearDown 12345000) c7State).1.timedTextGeneration =
       c7State.timedTextGeneration + 1 ∧
     (onRendererNotify (.audioOffloadTearDown 12345000) c7State).2 =
       [Event.sinkClose, Event.rendererFlush true]
         ++ (if c7State.videoDecoder.isSome then [Event.rendererFlush false] else [])
         ++ [Event.signalDisableOffloadAudio, Event.sourceSeekTo 12345000]
         ++ (if c7State.driver then [Event.notifyPosition 12345000, Event.notifySeekComplete] else [])
         ++ [Event.decoderInit true, Event.decoderConfigure true]) :=
  ⟨by decide, onRendererNotify_offloadTearDown_spec 12345000 c7State c9Fmt (by decide)⟩

end NuPlayer
